import Mathlib

/-!
Shallow embedding of the graphistry-mcp launcher scripts.

The repository contains two Node.js scripts:
* `src/index.js` — the supervisor: it selects a Python interpreter,
  verifies the worker entry script exists, spawns the worker with an
  augmented environment, and propagates the worker's exit status and
  signals.
* `src/postinstall.js` — the post-install dependency setup, of which we
  embed the interpreter-detection part (`checkCommand`, `findPython`,
  and the Python-check in `main`).

The operating-system facing calls (`fs.existsSync`, `spawnSync`) are
modelled by an oracle structure `Sys`; the observable effects of the
scripts (stderr output, killing the child, calling `process.exit`) are
reified as lists of `Action`s.
-/

namespace Launcher

/-- Oracle for the operating-system facing calls made by the scripts.
`fsExists p` models `fs.existsSync(p)`.  `probeStatus c` models the
`status` field of `spawnSync(c, ["--version"]).status`: `some s` when
the command launched and exited with status `s`, and `none` when the
launch itself failed (Node reports this as a `null` status together
with an `error` field on the returned object — `spawnSync` does not
throw for a failed launch).  `env` models `process.env`. -/
structure Sys where
  fsExists : String → Bool
  probeStatus : String → Option Int
  env : String → Option String

/-- Observable side effects of the supervisor. -/
inductive Action where
  | stderr (msg : String)
  | killChild (sig : String)
  | exit (code : Int)
deriving DecidableEq, Repr

/-- Model of Node's `path.join` on a POSIX platform. -/
def pathJoin (parts : List String) : String :=
  String.intercalate "/" parts

/-- The `venvPaths` array of `findPython` in `src/index.js`:
the Unix layout first, then the Windows layout. -/
def venvPaths (dir : String) : List String :=
  [pathJoin [dir, ".venv", "bin", "python"],
   pathJoin [dir, ".venv", "Scripts", "python.exe"]]

/-- The `candidates` array of the fallback loop in `findPython`. -/
def fallbackCandidates : List String :=
  ["python3", "python"]

/-- The two `console.warn` lines emitted when a system Python is used. -/
def fallbackWarnings : List String :=
  ["Warning: Using system Python. Dependencies may not be available.",
   "If you see import errors, try running: npm install again"]

/-- Result of the fallback probe loop of `findPython`:
which candidate (if any) was selected, which candidates were executed
with `--version`, and the warnings printed. -/
structure ProbeOut where
  selected : Option String
  probed : List String
  warnings : List String
deriving DecidableEq, Repr

/-- The `for (const cmd of candidates)` loop of `findPython` in
`src/index.js`: each candidate is executed with `--version` via
`spawnSync`; the first whose exit status is `0` is returned, after
printing the system-Python warning. -/
def tryFallbacks (sys : Sys) : List String → ProbeOut
  | [] => ⟨none, [], []⟩
  | c :: rest =>
    if sys.probeStatus c = some 0 then
      ⟨some c, [c], fallbackWarnings⟩
    else
      let r := tryFallbacks sys rest
      ⟨r.selected, c :: r.probed, r.warnings⟩

/-- Outcome of interpreter selection. -/
inductive PyResult where
  | venv (p : String)
  | system (cmd : String)
  | notFound
deriving DecidableEq, Repr

/-- Full result of `findPython`: the outcome, the list of fallback
commands that were executed, and the warnings printed. -/
structure FindResult where
  outcome : PyResult
  probed : List String
  warnings : List String
deriving DecidableEq, Repr

/-- `findPython` of `src/index.js`: first each venv path is checked
with `fs.existsSync` and the first existing one is returned; only when
none exists is the fallback loop over `python3`, `python` run.  When
the loop also fails, the script prints an error and exits — represented
by the `notFound` outcome (turned into the message and `process.exit(1)`
by `launch` below, as in the source). -/
def findPython (sys : Sys) (dir : String) : FindResult :=
  match (venvPaths dir).find? sys.fsExists with
  | some p => ⟨PyResult.venv p, [], []⟩
  | none =>
    let r := tryFallbacks sys fallbackCandidates
    match r.selected with
    | some c => ⟨PyResult.system c, r.probed, r.warnings⟩
    | none => ⟨PyResult.notFound, r.probed, r.warnings⟩

/-- `serverPath` of `src/index.js`:
`path.join(__dirname, "run_graphistry_mcp.py")`. -/
def serverPath (dir : String) : String :=
  pathJoin [dir, "run_graphistry_mcp.py"]

/-- The child environment of the `spawn` call:
`{...process.env, PYTHONUNBUFFERED: "1", GRAPHISTRY_VENV_ACTIVE: "1"}`.
JavaScript object spread keeps every key of `process.env` and the two
explicit keys override/add their values. -/
def childEnv (e : String → Option String) : String → Option String :=
  fun k =>
    if k = "PYTHONUNBUFFERED" then some "1"
    else if k = "GRAPHISTRY_VENV_ACTIVE" then some "1"
    else e k

/-- Result of the top-level script up to (and including) the `spawn`
call: either the script printed an error and exited before spawning,
or it spawned the worker with the given command, arguments and
environment. -/
inductive Launch where
  | fail (stderrMsg : String) (code : Int)
  | spawned (cmd : String) (args : List String)
      (ev : String → Option String)
      (warnings : List String) (probed : List String)

/-- The top-level flow of `src/index.js`: check that the server script
exists (exit 1 with the path in the message otherwise), then run
`findPython` (exit 1 with the install-Python message when it fails),
then spawn the selected interpreter on the server script with the
augmented environment. -/
def launch (sys : Sys) (dir : String) : Launch :=
  if sys.fsExists (serverPath dir) = false then
    Launch.fail ("Error: MCP server not found at " ++ serverPath dir) 1
  else
    match findPython sys dir with
    | ⟨PyResult.notFound, _, _⟩ =>
      Launch.fail "Error: Python not found. Please install Python 3.10+ from python.org" 1
    | ⟨PyResult.venv p, probed, ws⟩ =>
      Launch.spawned p [serverPath dir] (childEnv sys.env) ws probed
    | ⟨PyResult.system c, probed, ws⟩ =>
      Launch.spawned c [serverPath dir] (childEnv sys.env) ws probed

/-- JavaScript truthiness of the `signal` argument (a string or null):
`null` and the empty string are falsy. -/
def truthy : Option String → Bool
  | none => false
  | some s => s ≠ ""

/-- The `pythonProcess.on("exit", (code, signal) => ...)` handler of
`src/index.js`.  `code` is the exit status (or `null` when the worker
was killed by a signal), `signal` the signal name (or `null`).  The
first branch fires when `code !== null && code !== 0`; `process.exit`
terminates, so the second branch is only reached otherwise. -/
def exitHandler (code : Option Int) (signal : Option String) : List Action :=
  if code ≠ none ∧ code ≠ some 0 then
    [Action.stderr ("Python MCP server exited with code " ++ toString (code.getD 0)),
     Action.exit (code.getD 0)]
  else if truthy signal then
    [Action.stderr ("Python MCP server killed by signal " ++ signal.getD ""),
     Action.exit 1]
  else
    []

/-- The `pythonProcess.on("error", err => ...)` handler of
`src/index.js`: report the failure reason and `process.exit(1)`. -/
def errorHandler (errMsg : String) : List Action :=
  [Action.stderr ("Failed to start Python MCP server: " ++ errMsg),
   Action.exit 1]

/-- The signals for which the supervisor registers forwarding
handlers (`["SIGTERM", "SIGINT"].forEach(...)`). -/
def forwardedSignals : List String :=
  ["SIGTERM", "SIGINT"]

/-- Body of the handler registered for each forwarded signal:
`pythonProcess.kill(signal)` and nothing else. -/
def sigHandler (s : String) : List Action :=
  [Action.killChild s]

/-- The signal handlers registered by the script: `some` handler
exactly for the forwarded signals, none for any other signal. -/
def signalHandlers (s : String) : Option (List Action) :=
  if s ∈ forwardedSignals then some (sigHandler s) else none

/-- The supervisor exit code resulting from a list of actions: the
code of the first `process.exit` call, or `0` when `process.exit` is
never called (a Node process whose event loop drains exits with 0). -/
def exitCodeOf : List Action → Int
  | [] => 0
  | Action.exit c :: _ => c
  | _ :: rest => exitCodeOf rest

/-- The stderr lines produced by a list of actions, in order. -/
def stderrOf : List Action → List String
  | [] => []
  | Action.stderr m :: rest => m :: stderrOf rest
  | _ :: rest => stderrOf rest

end Launcher

namespace Postinstall

/-- Return value of Node's `spawnSync`.  A failed launch (e.g. the
command does not exist) is reported by a `null` status together with a
non-null `error` field on the returned object. -/
structure SpawnResult where
  status : Option Int
  error : Option String
deriving DecidableEq, Repr

/-- Model of the `spawnSync(cmd, ["--version"], {stdio: "ignore"})`
call in `src/postinstall.js`.  Per Node semantics, `spawnSync` does not
throw when the launch fails; the failure is placed in the `error` field
of the returned object, so the call always returns normally
(`Except.ok`). -/
def spawnSyncVersion (sys : Launcher.Sys) (cmd : String) :
    Except String SpawnResult :=
  Except.ok
    (match sys.probeStatus cmd with
     | some s => ⟨some s, none⟩
     | none => ⟨none, some "ENOENT"⟩)

/-- `checkCommand` of `src/postinstall.js`:
`try { spawnSync(cmd, ["--version"], {stdio: "ignore"}); return true }`
`catch (e) { return false }` — no property of the returned object is
inspected; the catch branch handles only a thrown exception. -/
def checkCommand (sys : Launcher.Sys) (cmd : String) : Bool :=
  match spawnSyncVersion sys cmd with
  | Except.ok _ => true
  | Except.error _ => false

/-- `findPython` of `src/postinstall.js`: the first of `python3`,
`python` accepted by `checkCommand`, or `null`. -/
def findPython (sys : Launcher.Sys) : Option String :=
  ["python3", "python"].find? (checkCommand sys)

/-- The Python check at the start of `main` in `src/postinstall.js`:
when `findPython` returns `null`, the script logs the
Python-not-found message and calls `process.exit(1)` — `some 1` here;
otherwise the check passes (`none`: `process.exit` is not called by
this branch). -/
def mainPythonCheck (sys : Launcher.Sys) : Option Int :=
  match findPython sys with
  | none => some 1
  | some _ => none

end Postinstall

/-- When some venv path exists, `findPython` returns the first existing
one, performs no fallback probe and prints no warning. -/
theorem findPython_venv (sys : Launcher.Sys) (dir p : String)
    (h : (Launcher.venvPaths dir).find? sys.fsExists = some p) :
    Launcher.findPython sys dir = ⟨Launcher.PyResult.venv p, [], []⟩ := by
  unfold Launcher.findPython
  rw [h]

/-- When no venv path exists, `findPython` is decided by the fallback
loop: python3 first, then python, each accepted on zero exit status. -/
theorem findPython_fallback (sys : Launcher.Sys) (dir : String)
    (h : (Launcher.venvPaths dir).find? sys.fsExists = none) :
    Launcher.findPython sys dir =
      (if sys.probeStatus "python3" = some 0 then
        ⟨Launcher.PyResult.system "python3", ["python3"], Launcher.fallbackWarnings⟩
       else if sys.probeStatus "python" = some 0 then
        ⟨Launcher.PyResult.system "python", ["python3", "python"],
          Launcher.fallbackWarnings⟩
       else
        ⟨Launcher.PyResult.notFound, ["python3", "python"], []⟩) := by
  unfold Launcher.findPython
  rw [h]
  by_cases h3 : sys.probeStatus "python3" = some 0
  · simp [Launcher.fallbackCandidates, Launcher.tryFallbacks, h3]
  · by_cases hp : sys.probeStatus "python" = some 0
    · simp [Launcher.fallbackCandidates, Launcher.tryFallbacks, h3, hp]
    · simp [Launcher.fallbackCandidates, Launcher.tryFallbacks, h3, hp]

/-- C1: for every status code c with which the worker exits, the
supervisor exits with exactly c; when c is non-zero the failure is
first reported on standard error. -/
theorem launcher_C1 (c : Int) :
    Launcher.exitCodeOf (Launcher.exitHandler (some c) none) = c ∧
    (c ≠ 0 → Launcher.stderrOf (Launcher.exitHandler (some c) none) =
      ["Python MCP server exited with code " ++ toString c]) := by
  by_cases h : c = 0
  · subst h
    simp [Launcher.exitHandler, Launcher.truthy, Launcher.exitCodeOf]
  · simp [Launcher.exitHandler, h, Launcher.exitCodeOf, Launcher.stderrOf]

/-- Witness for C1 at the concrete codes 0 and 7. -/
theorem launcher_C1_witness :
    (7 : Int) ≠ 0 ∧
    Launcher.exitCodeOf (Launcher.exitHandler (some 0) none) = 0 ∧
    Launcher.exitCodeOf (Launcher.exitHandler (some 7) none) = 7 ∧
    Launcher.stderrOf (Launcher.exitHandler (some 7) none) =
      ["Python MCP server exited with code " ++ toString (7 : Int)] :=
  ⟨by decide, (launcher_C1 0).1, (launcher_C1 7).1, (launcher_C1 7).2 (by decide)⟩

/-- C2: for each of the two forwarded termination signals, the
registered handler kills the worker with the identical signal and
performs no `process.exit`, so the supervisor keeps running until the
ordinary worker-exit handling fires. -/
theorem launcher_C2 (s : String) (h : s ∈ Launcher.forwardedSignals) :
    Launcher.signalHandlers s = some [Launcher.Action.killChild s] ∧
    ∀ c, Launcher.Action.exit c ∉ Launcher.sigHandler s := by
  refine ⟨?_, ?_⟩
  · simp [Launcher.signalHandlers, h, Launcher.sigHandler]
  · intro c
    simp [Launcher.sigHandler]

/-- Witness for C2 at the concrete signal SIGTERM. -/
theorem launcher_C2_witness :
    "SIGTERM" ∈ Launcher.forwardedSignals ∧
    (Launcher.signalHandlers "SIGTERM" =
        some [Launcher.Action.killChild "SIGTERM"] ∧
      ∀ c, Launcher.Action.exit c ∉ Launcher.sigHandler "SIGTERM") :=
  ⟨by decide, launcher_C2 "SIGTERM" (by decide)⟩

/-- C6: the environment handed to the spawned worker sets exactly the
two injected flags to "1" and agrees with the supervisor environment
on every other variable. -/
theorem launcher_C6 (e : String → Option String) (k : String)
    (h1 : k ≠ "PYTHONUNBUFFERED") (h2 : k ≠ "GRAPHISTRY_VENV_ACTIVE") :
    Launcher.childEnv e "PYTHONUNBUFFERED" = some "1" ∧
    Launcher.childEnv e "GRAPHISTRY_VENV_ACTIVE" = some "1" ∧
    Launcher.childEnv e k = e k := by
  unfold Launcher.childEnv
  refine ⟨by simp, ?_, ?_⟩
  · rw [if_neg (by decide), if_pos rfl]
  · rw [if_neg h1, if_neg h2]

/-- Concrete supervisor environment carrying the two visualization
credentials, used as the C6 witness input. -/
def envEx : String → Option String :=
  fun k =>
    if k = "GRAPHISTRY_USERNAME" then some "alice"
    else if k = "GRAPHISTRY_PASSWORD" then some "hunter2"
    else none

/-- Witness for C6: the username credential passes through unmodified
while the two flags are injected. -/
theorem launcher_C6_witness :
    "GRAPHISTRY_USERNAME" ≠ "PYTHONUNBUFFERED" ∧
    "GRAPHISTRY_USERNAME" ≠ "GRAPHISTRY_VENV_ACTIVE" ∧
    Launcher.childEnv envEx "PYTHONUNBUFFERED" = some "1" ∧
    Launcher.childEnv envEx "GRAPHISTRY_VENV_ACTIVE" = some "1" ∧
    Launcher.childEnv envEx "GRAPHISTRY_USERNAME" = envEx "GRAPHISTRY_USERNAME" :=
  ⟨by decide, by decide,
   (launcher_C6 envEx "GRAPHISTRY_USERNAME" (by decide) (by decide)).1,
   (launcher_C6 envEx "GRAPHISTRY_USERNAME" (by decide) (by decide)).2.1,
   (launcher_C6 envEx "GRAPHISTRY_USERNAME" (by decide) (by decide)).2.2⟩

/-- C7: when the worker is terminated by a signal (null code, non-null
signal name), the supervisor reports the signal name on standard error
and exits with the non-zero status 1. -/
theorem launcher_C7 (s : String) (h : s ≠ "") :
    Launcher.exitCodeOf (Launcher.exitHandler none (some s)) = 1 ∧
    (1 : Int) ≠ 0 ∧
    Launcher.stderrOf (Launcher.exitHandler none (some s)) =
      ["Python MCP server killed by signal " ++ s] := by
  simp [Launcher.exitHandler, Launcher.truthy, h,
    Launcher.exitCodeOf, Launcher.stderrOf]

/-- Witness for C7 at the concrete signal SIGKILL. -/
theorem launcher_C7_witness :
    "SIGKILL" ≠ "" ∧
    (Launcher.exitCodeOf (Launcher.exitHandler none (some "SIGKILL")) = 1 ∧
      (1 : Int) ≠ 0 ∧
      Launcher.stderrOf (Launcher.exitHandler none (some "SIGKILL")) =
        ["Python MCP server killed by signal " ++ "SIGKILL"]) :=
  ⟨by decide, launcher_C7 "SIGKILL" (by decide)⟩

/-- C8: when spawning the worker fails, the error handler reports the
failure reason on standard error and exits with the non-zero
status 1. -/
theorem launcher_C8 (m : String) :
    Launcher.exitCodeOf (Launcher.errorHandler m) = 1 ∧
    (1 : Int) ≠ 0 ∧
    Launcher.stderrOf (Launcher.errorHandler m) =
      ["Failed to start Python MCP server: " ++ m] := by
  simp [Launcher.errorHandler, Launcher.exitCodeOf, Launcher.stderrOf]

/-- C3: interpreter selection order — when a venv interpreter file
exists the first existing one is selected with no fallback probe
executed; otherwise python3 then python are probed, each selected on a
zero exit status of the version query. -/
theorem launcher_C3 (sys : Launcher.Sys) (dir : String) :
    (∀ p, (Launcher.venvPaths dir).find? sys.fsExists = some p →
      Launcher.findPython sys dir = ⟨Launcher.PyResult.venv p, [], []⟩) ∧
    ((Launcher.venvPaths dir).find? sys.fsExists = none →
      Launcher.findPython sys dir =
        (if sys.probeStatus "python3" = some 0 then
          ⟨Launcher.PyResult.system "python3", ["python3"], Launcher.fallbackWarnings⟩
         else if sys.probeStatus "python" = some 0 then
          ⟨Launcher.PyResult.system "python", ["python3", "python"],
            Launcher.fallbackWarnings⟩
         else
          ⟨Launcher.PyResult.notFound, ["python3", "python"], []⟩)) :=
  ⟨fun p h => findPython_venv sys dir p h, fun h => findPython_fallback sys dir h⟩

/-- System oracle for the C3 witness: only the Unix venv interpreter
file exists, and no command launches. -/
def sysVenv : Launcher.Sys :=
  { fsExists := fun p => p == "/app/.venv/bin/python"
    probeStatus := fun _ => none
    env := fun _ => none }

/-- Witness for C3: with the Unix venv interpreter present, it is
selected and the probe list stays empty. -/
theorem launcher_C3_witness :
    (Launcher.venvPaths "/app").find? sysVenv.fsExists =
      some "/app/.venv/bin/python" ∧
    Launcher.findPython sysVenv "/app" =
      ⟨Launcher.PyResult.venv "/app/.venv/bin/python", [], []⟩ :=
  ⟨by decide, (launcher_C3 sysVenv "/app").1 "/app/.venv/bin/python" (by decide)⟩

/-- C4: when the worker entry script is absent, the supervisor fails
with the attempted path in the message and exit code 1, and the result
does not depend on the interpreter probe oracle at all (no interpreter
is probed or selected). -/
theorem launcher_C4 (sys : Launcher.Sys) (dir : String)
    (h : sys.fsExists (Launcher.serverPath dir) = false) :
    Launcher.launch sys dir =
      Launcher.Launch.fail
        ("Error: MCP server not found at " ++ Launcher.serverPath dir) 1 ∧
    ∀ q, Launcher.launch { sys with probeStatus := q } dir =
      Launcher.launch sys dir := by
  constructor
  · unfold Launcher.launch
    rw [h, if_pos rfl]
  · intro q
    unfold Launcher.launch
    rw [show ({ sys with probeStatus := q } : Launcher.Sys).fsExists =
      sys.fsExists from rfl, h, if_pos rfl, if_pos rfl]

/-- System oracle for the C4 witness: no file exists. -/
def sysNoFs : Launcher.Sys :=
  { fsExists := fun _ => false
    probeStatus := fun _ => none
    env := fun _ => none }

/-- Witness for C4 with a missing worker script, also instantiating the
probe-independence conjunct at an oracle that accepts everything. -/
theorem launcher_C4_witness :
    sysNoFs.fsExists (Launcher.serverPath "/app") = false ∧
    Launcher.launch sysNoFs "/app" =
      Launcher.Launch.fail
        ("Error: MCP server not found at " ++ Launcher.serverPath "/app") 1 ∧
    Launcher.launch { sysNoFs with probeStatus := fun _ => some 0 } "/app" =
      Launcher.launch sysNoFs "/app" :=
  ⟨by decide, (launcher_C4 sysNoFs "/app" (by decide)).1,
   (launcher_C4 sysNoFs "/app" (by decide)).2 (fun _ => some 0)⟩

/-- C5: when the worker script exists but no venv interpreter file
exists and neither fallback passes the version probe, the supervisor
fails with the install-Python message and exit code 1, spawning
nothing. -/
theorem launcher_C5 (sys : Launcher.Sys) (dir : String)
    (hs : sys.fsExists (Launcher.serverPath dir) = true)
    (hv1 : sys.fsExists (Launcher.pathJoin [dir, ".venv", "bin", "python"]) = false)
    (hv2 : sys.fsExists
      (Launcher.pathJoin [dir, ".venv", "Scripts", "python.exe"]) = false)
    (h3 : sys.probeStatus "python3" ≠ some 0)
    (hp : sys.probeStatus "python" ≠ some 0) :
    Launcher.launch sys dir =
      Launcher.Launch.fail
        "Error: Python not found. Please install Python 3.10+ from python.org" 1 := by
  have hfv : (Launcher.venvPaths dir).find? sys.fsExists = none := by
    simp [Launcher.venvPaths, List.find?, hv1, hv2]
  unfold Launcher.launch
  rw [hs, if_neg (by simp), findPython_fallback sys dir hfv,
    if_neg h3, if_neg hp]

/-- System oracle for the C5 witness: only the worker script exists and
every interpreter probe exits with status 1. -/
def sysOnlyScript : Launcher.Sys :=
  { fsExists := fun p => p == "/app/run_graphistry_mcp.py"
    probeStatus := fun _ => some 1
    env := fun _ => none }

/-- Witness for C5: no interpreter candidate succeeds, so the launch
fails with the install-Python message. -/
theorem launcher_C5_witness :
    sysOnlyScript.fsExists (Launcher.serverPath "/app") = true ∧
    Launcher.launch sysOnlyScript "/app" =
      Launcher.Launch.fail
        "Error: Python not found. Please install Python 3.10+ from python.org" 1 :=
  ⟨by decide,
   launcher_C5 sysOnlyScript "/app" (by decide) (by decide) (by decide)
     (by decide) (by decide)⟩

/-- C9: the dependency-availability warning is printed if and only if a
fallback system interpreter is the selected outcome. -/
theorem launcher_C9 (sys : Launcher.Sys) (dir : String) :
    (Launcher.findPython sys dir).warnings ≠ [] ↔
      ∃ c, (Launcher.findPython sys dir).outcome = Launcher.PyResult.system c := by
  cases hfv : (Launcher.venvPaths dir).find? sys.fsExists with
  | some p =>
    rw [findPython_venv sys dir p hfv]
    simp
  | none =>
    rw [findPython_fallback sys dir hfv]
    by_cases h3 : sys.probeStatus "python3" = some 0
    · simp [h3, Launcher.fallbackWarnings]
    · by_cases hp : sys.probeStatus "python" = some 0
      · simp [h3, hp, Launcher.fallbackWarnings]
      · simp [h3, hp]

/-- C10: in the post-install script, `spawnSync` reports launch failure
in its return value and never throws, so `checkCommand` returns true
for every command, `findPython` always returns python3, and the
Python-not-found exit branch of `main` is unreachable. -/
theorem postinstall_C10 (sys : Launcher.Sys) (cmd : String) :
    Postinstall.checkCommand sys cmd = true ∧
    Postinstall.findPython sys = some "python3" ∧
    Postinstall.mainPythonCheck sys = none :=
  ⟨rfl, rfl, rfl⟩
